import Mathlib

/-!
Shallow embedding of the choreo source-config validator
(`src/index.js` and the schemas module) and proofs about its
validation rules.
-/

/-- JS truthiness for an optional string field: `undefined`/`null` and the
empty string are falsy, every other string is truthy. -/
def jsTruthyStr : Option String → Bool
  | none => false
  | some s => !(s == "")

/-- Result of dispatching a component.yaml validation in
`validateComponentYaml` (src/index.js): either some schema was run
(producing a list of violation messages) or the `default` switch case threw. -/
inductive DispatchResult where
  | ranSchema (violations : List String)
  | threw (message : String)
deriving DecidableEq

/-- The dispatcher `validateComponentYaml` (src/index.js lines 68-85): switches on
`schemaVersion` with cases `1.0` and `1.1` only; any other version hits the
`default` case and throws. The two schema runners are the imported
`componentYamlSchemaV1D0` / `componentYamlSchemaV1D1` validators, abstracted
here as function parameters: the unsupported-version branch never invokes
them (the statement below is independent of `runV1D0`, `runV1D1` and `doc`). -/
def validateComponentYaml {α : Type} (runV1D0 runV1D1 : α → List String)
    (schemaVersion : ℚ) (doc : α) : DispatchResult :=
  if schemaVersion = 1.0 then .ranSchema (runV1D0 doc)
  else if schemaVersion = 1.1 then .ranSchema (runV1D1 doc)
  else .threw "SchemaVersion must be one of the following values: 1.0, 1.1"

/-- The constant `LATEST_COMPONENT_YAML_SCHEMA_VERSION` from the schemas module. -/
def LATEST_COMPONENT_YAML_SCHEMA_VERSION : ℚ := 1.2

/-- The document violations carried by a dispatch outcome: a thrown
unsupported-version error carries none. -/
def dispatchViolations : DispatchResult → List String
  | .ranSchema vs => vs
  | .threw _ => []

/-! ## Environment-variable `oneOfRequired` tests (schemas module) -/

/-- A `valueFrom.connectionRef` / `valueFrom.configGroupRef` object
(`connectionRefSchema` / `configGroupRefSchema`): `{name, key}`, nullable with
default `null` (modelled by wrapping in `Option` at the use site). -/
structure RefObject where
  name : Option String
  key : Option String
deriving DecidableEq

/-- A `valueFrom.configForm` object (`configFormSchema`), nullable with
default `null`. -/
structure ConfigFormObject where
  displayName : Option String
  required : Option Bool
  type : Option String
deriving DecidableEq

/-- The `valueFrom` object of an environment variable entry. The v0.1 schema
shape declares `connectionRef` and `configGroupRef`; the v0.2 shape adds
`configForm`. The `oneOfRequired` test bodies only ever read these three
fields, so one record serves both schema versions. -/
structure ValueFrom where
  connectionRef : Option RefObject
  configGroupRef : Option RefObject
  configForm : Option ConfigFormObject
deriving DecidableEq

/-- An environment variable entry as seen by the `oneOfRequired` tests. -/
structure EnvVariable where
  name : Option String
  value : Option String
  valueFrom : Option ValueFrom
deriving DecidableEq

/-- The `oneOfRequired` test body of `envVariableSchemaV0D1`:
`envVariable?.value || envVariable?.valueFrom?.configGroupRef ||
envVariable?.valueFrom?.connectionRef` — JS truthiness: a present non-empty
string or a present (non-null) object passes. -/
def envOneOfTestV0D1 (env : EnvVariable) : Bool :=
  jsTruthyStr env.value
    || (env.valueFrom.bind ValueFrom.configGroupRef).isSome
    || (env.valueFrom.bind ValueFrom.connectionRef).isSome

/-- The `oneOfRequired` test of `envVariableSchemaV0D1` as a violation:
`none` when the test passes, otherwise the message of the test. -/
def envOneOfViolationV0D1 (env : EnvVariable) : Option String :=
  if envOneOfTestV0D1 env then none
  else some "One of value, connectionRef or configGroupRef must be provided"

/-- The `oneOfRequired` test body of `envVariableSchemaV0D2`, additionally
accepting a present `valueFrom.configForm`. -/
def envOneOfTestV0D2 (env : EnvVariable) : Bool :=
  jsTruthyStr env.value
    || (env.valueFrom.bind ValueFrom.configGroupRef).isSome
    || (env.valueFrom.bind ValueFrom.connectionRef).isSome
    || (env.valueFrom.bind ValueFrom.configForm).isSome

/-- The `oneOfRequired` test of `envVariableSchemaV0D2` as a violation
(the source message contains a double space before `or configForm`). -/
def envOneOfViolationV0D2 (env : EnvVariable) : Option String :=
  if envOneOfTestV0D2 env then none
  else some "One of value, connectionRef, configGroupRef  or configForm must be provided"

/-! ## `schemaFileExists` custom validator (schemas module lines 85-110) -/

/-- Outcome of a single yup test: pass, or fail with a violation message. -/
inductive TestOutcome where
  | pass
  | fail (message : String)
deriving DecidableEq

/-- Default yup test message `${path} is invalid` (used when a test fails
without supplying a message); `${path}` renders as the field path, or `this`
when the path is empty. -/
def yupDefaultMessage (path : String) : String :=
  (if path == "" then "this" else path) ++ " is invalid"

/-- The `schemaFileExists` test. The injected probe models
`fs.existsSync(path.join(srcDir, value))`: `.ok b` is a normal answer,
`.error e` a thrown I/O error. The source wraps the probe in `try`/`catch`;
the `catch` block constructs a `ValidationError` but does not `return` it, so
the test callback returns `undefined`, which yup treats as a failed test with
its default message. The outer `Except` layer records whether an exception
escapes the validator: it never does, so every branch is `.ok`. -/
def schemaFileExists (path : String) (value : Option String)
    (probe : Except String Bool) : Except String TestOutcome :=
  match value with
  | none => .ok .pass
  | some v =>
    if v == "" then .ok .pass
    else
      match probe with
      | .ok true => .ok .pass
      | .ok false =>
          .ok (.fail ("Schema file does not exist at the given path " ++ v ++ "."))
      | .error _ => .ok (.fail (yupDefaultMessage path))

/-! ## `constructValidationErrorMessage` (src/index.js lines 54-66) -/

/-- The failure object passed to `constructValidationErrorMessage`:
`errors` is the yup `ValidationError.errors` array of violation message
strings (absent on a plain `Error`), and `toStringRepr` is the JS string
coercion of the error used by the `+ err` concatenation. -/
structure ValidationFailure where
  errors : Option (List String)
  toStringRepr : String
deriving DecidableEq

/-- Left-to-right concatenation of a list of strings, as produced by
`array.map(...).join("")`. -/
def concatAll : List String → String
  | [] => ""
  | s :: rest => s ++ concatAll rest

/-- The reporter `constructValidationErrorMessage`. The `errCodes.INTERNAL_ERROR` and
`errCodes.USER_ERROR` constants are imported from the `enums` module, which is
not among the provided sources; modelled from the spec as abstract `String`
parameters (the spec only requires an internal-error versus user-error
distinction, never fixing their text). -/
def constructValidationErrorMessage (internalCode userCode : String)
    (err : ValidationFailure) (fileType : String) : String :=
  match err.errors with
  | none =>
      internalCode ++ " Failed to validate " ++ fileType ++
        ", something went wrong:" ++ err.toStringRepr
  | some errors =>
    if errors.length = 0 then
      internalCode ++ " Failed to validate " ++ fileType ++
        ", something went wrong:" ++ err.toStringRepr
    else
      let errorMsg := userCode ++ " " ++ fileType ++ " validation failed: "
      let errorList :=
        if errors.length = 1 then errors.headD ""
        else concatAll (errors.map (fun e => "\n- " ++ e))
      errorMsg ++ errorList

/-! ## Port bounds (`serviceSchema` line 255, `endpointSchemaV0D1` line 264) -/

/-- A violation produced by a yup number chain. -/
inductive NumViolation where
  | required
  | notMoreThan (bound : ℚ)
  | notLessThan (bound : ℚ)
deriving DecidableEq

/-- A yup number chain `yup.number().required().moreThan(mt).lessThan(lt)`
run in non-fail-fast mode: an absent value fails `required`; a present value
collects a violation for each bound it does not satisfy (`moreThan` is a
strict `>`, `lessThan` a strict `<`). -/
def runNumberChecks (req : Bool) (mtBound ltBound : Option ℚ)
    (value : Option ℚ) : List NumViolation :=
  match value with
  | none => if req then [.required] else []
  | some v =>
    (match mtBound with
     | some b => if b < v then [] else [.notMoreThan b]
     | none => []) ++
    (match ltBound with
     | some b => if v < b then [] else [.notLessThan b]
     | none => [])

/-- The `port` field chain `yup.number().required().moreThan(1000).lessThan(65535)`,
identical in `serviceSchema` and in `endpointSchemaV0D1`. -/
def portChecks (value : Option ℚ) : List NumViolation :=
  runNumberChecks true (some 1000) (some 65535) value

/-! ## `checkEndpointNameUniqueness` (schemas module lines 18-40) -/

/-- An endpoint as read by the uniqueness test (the test only accesses
`ep.name`). -/
structure Endpoint where
  name : String
deriving DecidableEq

/-- The `arr.every` loop of `checkEndpointNameUniqueness`: walks the
endpoints carrying the set of names seen so far (the JS `Set` is modelled as
a list with membership), and reports `false` as soon as a name repeats. -/
def epUniqueLoop : List String → List Endpoint → Bool
  | _, [] => true
  | seen, ep :: rest =>
    if seen.contains ep.name then false
    else epUniqueLoop (ep.name :: seen) rest

/-- The validator `checkEndpointNameUniqueness`: an absent array passes; otherwise a single
test over the whole array that yields at most one violation. -/
def checkEndpointNameUniqueness (arr : Option (List Endpoint)) : Option String :=
  match arr with
  | none => none
  | some eps =>
    if epUniqueLoop [] eps then none
    else some "Endpoint names must be unique"

/-- Number of violations the uniqueness test contributes. -/
def uniquenessViolationCount (arr : Option (List Endpoint)) : Nat :=
  (checkEndpointNameUniqueness arr).elim 0 (fun _ => 1)

/-! ## Character-list utilities shared by the embeddings -/

/-- Split a character list on a separator, keeping empty pieces, as JS
`string.split(sep)` does. Always returns at least one piece. -/
def splitOnChar (sep : Char) : List Char → List (List Char)
  | [] => [[]]
  | c :: cs =>
    if c = sep then [] :: splitOnChar sep cs
    else
      match splitOnChar sep cs with
      | [] => [[c]]
      | l :: ls => (c :: l) :: ls

/-- Drop a literal pattern (first argument) from the front of a string
(second argument): `some rest` on success, `none` when the string does not
start with the pattern. -/
def dropLitChars : List Char → List Char → Option (List Char)
  | [], s => some s
  | _ :: _, [] => none
  | p :: ps, c :: cs => if c == p then dropLitChars ps cs else none

/-- JS `value.startsWith(pat)`. -/
def startsWithChars (s pat : List Char) : Bool :=
  (dropLitChars pat s).isSome

/-! ## `projectVisibilityOnly` custom validator (schemas module lines 222-240) -/

/-- The `PROJECT_ONLY_TYPES` constant. -/
def PROJECT_ONLY_TYPES : List String := ["GRPC", "TCP", "UDP"]

/-- The `PROJECT_VISIBILITY` constant. -/
def PROJECT_VISIBILITY : String := "Project"

/-- The expression `testCtx.path.split(".")[0] || "endpoint"`: the first dot-separated piece
of the field path, defaulting to `"endpoint"` when that piece is empty. -/
def erroredEndpoint (path : String) : String :=
  let head : String := ⟨((splitOnChar '.' path.data).headD [])⟩
  if head == "" then "endpoint" else head

/-- The `isVisibilityProjectOnly` check inside `projectVisibilityOnly`:
`visibility?.length === 1 && visibility[0] === PROJECT_VISIBILITY`. -/
def visibilityIsProjectOnly : Option (List String) → Bool
  | some vs => vs.length == 1 && vs.headD "" == PROJECT_VISIBILITY
  | none => false

/-- The `projectVisibilityOnly` test: for an endpoint whose sibling `type` is
in `PROJECT_ONLY_TYPES`, the `networkVisibilities` array must be exactly the
one-element array `["Project"]`; otherwise a violation naming the endpoint
and the type is produced. -/
def projectVisibilityOnly (path : String) (epType : String)
    (visibility : Option (List String)) : Option String :=
  let isVisibilityProjectOnly := visibilityIsProjectOnly visibility
  let isTypeProjectOnly := PROJECT_ONLY_TYPES.contains epType
  if isTypeProjectOnly && !isVisibilityProjectOnly then
    some ("The " ++ erroredEndpoint path ++ " is a type " ++ epType ++
      " endpoint and can only have networkVisibility set to " ++ PROJECT_VISIBILITY)
  else none

/-! ## Identifier grammars (schemas module: `validateServiceName` lines
113-161 and `validateResourceRef` lines 164-219)

Each JS regex used there is anchored (`^...$`) and its character classes
never contain the separators `/` and `:`, so every regex is equivalent to a
deterministic split-and-check parse; the parsers below implement exactly
those grammars. -/

/-- A character of the `TOKEN` class `[a-zA-Z0-9_-]`. -/
def tokenChar (c : Char) : Bool :=
  c.isAlphanum || c == '_' || c == '-'

/-- A non-empty `[a-zA-Z0-9_-]+` token. -/
def tokenOk (l : List Char) : Bool :=
  !l.isEmpty && l.all tokenChar

/-- A JS `\s` character (ECMAScript WhiteSpace and LineTerminator, as matched
by a regex without the `u` flag). -/
def jsWhitespaceChar (c : Char) : Bool :=
  c == '\t' || c == '\n' || c == '\u000B' || c == '\u000C' || c == '\r'
    || c == ' ' || c == '\u00A0' || c == '\u1680'
    || ('\u2000' ≤ c && c ≤ '\u200A')
    || c == '\u2028' || c == '\u2029' || c == '\u202F' || c == '\u205F'
    || c == '\u3000' || c == '\uFEFF'

/-- A character of the third-party name class `[a-zA-Z0-9\s_.-]`. -/
def thirdPartyNameChar (c : Char) : Bool :=
  c.isAlphanum || jsWhitespaceChar c || c == '_' || c == '.' || c == '-'

/-- Digit groups of a version: having already consumed `[vV]` (and possibly
some digits — the flag records whether the current group has one), accept
`\d+(\.\d+)*` up to the end of the segment. -/
def versionDigitsRun : List Char → Bool → Bool
  | [], seenDigit => seenDigit
  | c :: cs, seenDigit =>
    if c.isDigit then versionDigitsRun cs true
    else if c = '.' then seenDigit && versionDigitsRun cs false
    else false

/-- The third-party version segment `[vV]\d+(\.\d+)*`. -/
def thirdPartyVersionOk : List Char → Bool
  | c :: cs => (c == 'v' || c == 'V') && versionDigitsRun cs false
  | [] => false

/-- The resource-reference version segment `[vV]?\d+(\.\d+)*`. -/
def resourceVersionOk : List Char → Bool
  | [] => false
  | c :: cs =>
    if c == 'v' || c == 'V' then versionDigitsRun cs false
    else versionDigitsRun (c :: cs) false

/-- The choreo version segment `v\d+(\.\d+)?` (lowercase `v`, at most one
dot). -/
def choreoVersionOk : List Char → Bool
  | 'v' :: cs =>
    let (ds, rest) := cs.span Char.isDigit
    !ds.isEmpty &&
      (match rest with
       | [] => true
       | '.' :: rest2 =>
         let (ds2, rest3) := rest2.span Char.isDigit
         !ds2.isEmpty && rest3.isEmpty
       | _ => false)
  | _ => false

/-- A network-visibility literal `(PUBLIC|PROJECT|ORGANIZATION)`. -/
def visOk (l : List Char) : Bool :=
  l == "PUBLIC".data || l == "PROJECT".data || l == "ORGANIZATION".data

/-- The regex `choreoSvcRefNameRegex`:
`^choreo:\/\/\/TOKEN\/TOKEN\/TOKEN\/TOKEN\/v\d+(\.\d+)?\/(PUBLIC|PROJECT|ORGANIZATION)$`.
Since neither `TOKEN` nor the version nor the visibility may contain `/`,
the regex matches exactly when the text after `choreo:///` splits on `/`
into six segments of those shapes. -/
def choreoRefMatches (s : List Char) : Bool :=
  match dropLitChars "choreo:///".data s with
  | none => false
  | some rest =>
    match splitOnChar '/' rest with
    | [t1, t2, t3, t4, ver, vis] =>
      tokenOk t1 && tokenOk t2 && tokenOk t3 && tokenOk t4 &&
        choreoVersionOk ver && visOk vis
    | _ => false

/-- The regex `thirdPartySvcRefNameRegex`:
`^thirdparty:([a-zA-Z0-9\s_.-]+)\/([vV]\d+(\.\d+)*)$` — one `/` splitting a
non-empty name (class includes every JS `\s` character) from the version. -/
def thirdPartyRefMatches (s : List Char) : Bool :=
  match dropLitChars "thirdparty:".data s with
  | none => false
  | some rest =>
    match splitOnChar '/' rest with
    | [nm, ver] => !nm.isEmpty && nm.all thirdPartyNameChar && thirdPartyVersionOk ver
    | _ => false

/-- Modelled from the spec: the claimed bit-exact third-party grammar
`thirdparty:[A-Za-z0-9 _.\-]+/[vV]\d+(\.\d+)*`, whose name class allows the
space character only (not the rest of JS `\s`). Defined for comparison with
`thirdPartyRefMatches`, the grammar the source actually implements. -/
def specThirdPartyNameChar (c : Char) : Bool :=
  c.isAlphanum || c == ' ' || c == '_' || c == '.' || c == '-'

/-- Modelled from the spec: acceptance under the claimed bit-exact
third-party grammar, identical to `thirdPartyRefMatches` except for the name
character class. -/
def specThirdPartyRefMatches (s : List Char) : Bool :=
  match dropLitChars "thirdparty:".data s with
  | none => false
  | some rest =>
    match splitOnChar '/' rest with
    | [nm, ver] => !nm.isEmpty && nm.all specThirdPartyNameChar && thirdPartyVersionOk ver
    | _ => false

/-- The regex `dbSvcRefNameRegex`: `^database:(([a-zA-Z0-9_-]+)\/)?([a-zA-Z0-9_-]+)$` —
after `database:`, one token or two tokens separated by `/`. -/
def dbRefMatches (s : List Char) : Bool :=
  match dropLitChars "database:".data s with
  | none => false
  | some rest =>
    match splitOnChar '/' rest with
    | [d] => tokenOk d
    | [srv, d] => tokenOk srv && tokenOk d
    | _ => false

/-- The 2-to-4 segment core `TOKEN\/VER(\/TOKEN)?(\/VIS)?` of
`svcRefNameRegex` (a 3-segment tail may be either the optional endpoint
token or the optional visibility; the visibility literals are themselves
tokens, so the disjunction mirrors the two ways the regex can match it). -/
def svcRefCore : List (List Char) → Bool
  | [comp, ver] => tokenOk comp && resourceVersionOk ver
  | [comp, ver, x] => tokenOk comp && resourceVersionOk ver && (tokenOk x || visOk x)
  | [comp, ver, ep, vis] =>
    tokenOk comp && resourceVersionOk ver && tokenOk ep && visOk vis
  | _ => false

/-- The regex `svcRefNameRegex`:
`^(service:)?(\/([a-zA-Z0-9_-]+)\/)?([a-zA-Z0-9_-]+)\/([vV]?\d+(\.\d+)*)(\/([a-zA-Z0-9_-]+))?(\/(PUBLIC|PROJECT|ORGANIZATION))?$`.
The optional `service:` literal is consumed exactly when the string starts
with it (no other part of the pattern can match a `:`), and the optional
`\/TOKEN\/` project group is taken exactly when a `/` is next. -/
def svcRefMatches (s : List Char) : Bool :=
  let rest := match dropLitChars "service:".data s with
    | some r => r
    | none => s
  match splitOnChar '/' rest with
  | [] :: proj :: more => tokenOk proj && svcRefCore more
  | segs => svcRefCore segs

/-- The classifier `validateServiceName` (for `serviceReferences[].name` under `dependencies`):
dispatch by literal prefix; a string with none of the three recognized
prefixes is always a violation. Returns `none` on acceptance, otherwise the
violation message (built from the yup test context path). -/
def validateServiceName (path : String) (value : List Char) : Option String :=
  if startsWithChars value "choreo:///".data then
    if choreoRefMatches value then none
    else some (path ++ " has an invalid service identifier. " ++
      "Use the format choreo:///<org-handle>/<project-handle>/<component-handle>/<endpoint-identifier>/<major-version>/<network-visibility>")
  else if startsWithChars value "thirdparty:".data then
    if thirdPartyRefMatches value then none
    else some (path ++ " has an invalid service identifier. " ++
      "Use the format thirdparty:<service_name>/<version>, " ++
      "allowing only alphanumeric characters, periods (.), underscores (_), hyphens (-), and slashes (/) after thirdparty:.")
  else if startsWithChars value "database:".data then
    if dbRefMatches value then none
    else some (path ++ " has an invalid service identifier. " ++
      "Use the format database:[<serverName>/]<databaseName> where optional fields are in brackets, " ++
      "allowing only alphanumeric characters, underscores (_), hyphens (-), and slashes (/) after database:.")
  else
    some (path ++ " has an invalid service identifier. It can only contain choreo, thirdparty, or database types.")

/-- The classifier `validateResourceRef` (for `resourceRef` under `connectionReferences`): dispatch by
prefix `service:` / `thirdparty:` / `database:`; a string with none of those
prefixes is re-tested against the generic resource-reference grammar
(`service:` being optional there). -/
def validateResourceRef (path : String) (value : List Char) : Option String :=
  if startsWithChars value "service:".data then
    if svcRefMatches value then none
    else some (path ++ " has an invalid service identifier. " ++
      "Use the format [service:][/<project-handle>/]<component-handle>/<major-version>[/<endpoint-handle>][/<network-visibility>] where optional fields are specified in brackets.")
  else if startsWithChars value "thirdparty:".data then
    if thirdPartyRefMatches value then none
    else some (path ++ " has an invalid service identifier. " ++
      "Use the format thirdparty:<service_name>/<version>, " ++
      "allowing only alphanumeric characters, periods (.), underscores (_), hyphens (-), and slashes (/) after thirdparty:.")
  else if startsWithChars value "database:".data then
    if dbRefMatches value then none
    else some (path ++ " has an invalid service identifier. " ++
      "Use the format database:[<serverName>/]<databaseName> where optional fields are in brackets, " ++
      "allowing only alphanumeric characters, underscores (_), hyphens (-), and slashes (/) after database:.")
  else
    if svcRefMatches value then none
    else some (path ++ " has an invalid service identifier. " ++
      "For services, use [service:][/<project-handle>/]<component-handle>/<major-version>[/<endpoint-handle>][/<network-visibility>]. " ++
      "For databases, use database:[<serverName>/]<databaseName>. " ++
      "For third-party services, use thirdparty:<service_name>/<version>. " ++
      "Optional fields are specified in brackets.")

/-- A string has no newline character (decidably). -/
def noNewline (s : String) : Bool :=
  s.data.all (fun c => !(c == '\n'))

/-! ## Helper lemmas -/

theorem data_append (s t : String) : (s ++ t).data = s.data ++ t.data := by
  cases s; cases t; rfl

theorem lastCharOfAppend (s t : String) (c : Char)
    (h : t.data.getLast? = some c) : (s ++ t).data.getLast? = some c := by
  rw [data_append]
  have hne : t.data ≠ [] := by
    intro h0
    rw [h0] at h
    simp at h
  rw [List.getLast?_append_of_ne_nil s.data hne]
  exact h

theorem noNewline_mem {s : String} (h : noNewline s = true) :
    ∀ c ∈ s.data, c ≠ '\n' := by
  intro c hc
  have := List.all_eq_true.mp h c hc
  simpa using this

/-! ## C1: env-variable source requirement -/

/-- Claim C1, counterexample. The claim says an env entry carrying two sources
(both `value` and `valueFrom.connectionRef`) must produce an exactly-one-of
violation. The `oneOfRequired` tests of both `envVariableSchemaV0D1` and
`envVariableSchemaV0D2` accept that entry: the test is a JS `||` chain, i.e.
an at-least-one check, so no violation is produced.
-/
theorem envOneOf_twoSources_noViolation :
    envOneOfViolationV0D1
        ⟨some "X", some "1", some ⟨some ⟨some "a", some "b"⟩, none, none⟩⟩ = none ∧
      envOneOfViolationV0D2
        ⟨some "X", some "1", some ⟨some ⟨some "a", some "b"⟩, none, none⟩⟩ = none := by
  exact ⟨rfl, rfl⟩

/-- Claim C1, amended. For every env entry validated by the v0.1 and v0.2
env-variable schemas, the `oneOfRequired` test produces no violation iff at
least one of `value` (as a non-empty string — JS truthiness),
`valueFrom.connectionRef`, `valueFrom.configGroupRef`, and (v0.2 only)
`valueFrom.configForm` is present; an entry with none of them present
produces the violation, and an entry with one or more present produces none.
-/
theorem envOneOf_atLeastOne (env : EnvVariable) :
    (envOneOfViolationV0D1 env = none ↔
      (jsTruthyStr env.value = true ∨
        (env.valueFrom.bind ValueFrom.connectionRef).isSome = true ∨
        (env.valueFrom.bind ValueFrom.configGroupRef).isSome = true)) ∧
    (envOneOfViolationV0D2 env = none ↔
      (jsTruthyStr env.value = true ∨
        (env.valueFrom.bind ValueFrom.connectionRef).isSome = true ∨
        (env.valueFrom.bind ValueFrom.configGroupRef).isSome = true ∨
        (env.valueFrom.bind ValueFrom.configForm).isSome = true)) ∧
    envOneOfViolationV0D1 ⟨some "X", none, none⟩ =
      some "One of value, connectionRef or configGroupRef must be provided" ∧
    envOneOfViolationV0D1 ⟨some "X", some "1", none⟩ = none := by
  refine ⟨?_, ?_, rfl, rfl⟩
  · have h : envOneOfViolationV0D1 env = none ↔ envOneOfTestV0D1 env = true := by
      simp only [envOneOfViolationV0D1]
      split <;> simp_all
    rw [h, envOneOfTestV0D1]
    simp only [Bool.or_eq_true]
    tauto
  · have h : envOneOfViolationV0D2 env = none ↔ envOneOfTestV0D2 env = true := by
      simp only [envOneOfViolationV0D2]
      split <;> simp_all
    rw [h, envOneOfTestV0D2]
    simp only [Bool.or_eq_true]
    tauto

/-! ## C2: schema version 1.2 is not dispatchable -/

/-- Claim C2. The claim says every document with `schemaVersion` 1.2 dispatches to
the v1.2 schema. It does not: the switch in `validateComponentYaml` handles only
`1.0` and `1.1`, so version `1.2` — the schemas module constant
`LATEST_COMPONENT_YAML_SCHEMA_VERSION`, for which `componentYamlSchemaV1D2`
is declared and exported — falls into the `default` case and throws the
unsupported-version error, for every document and whatever the two wired-in
schema runners would report.
-/
theorem componentYaml_v1D2_notDispatched {α : Type}
    (runV1D0 runV1D1 : α → List String) (doc : α) :
    validateComponentYaml runV1D0 runV1D1 LATEST_COMPONENT_YAML_SCHEMA_VERSION doc =
      .threw "SchemaVersion must be one of the following values: 1.0, 1.1" := by
  norm_num [validateComponentYaml, LATEST_COMPONENT_YAML_SCHEMA_VERSION]

/-! ## C3: unsupported schema versions throw immediately -/

/-- Claim C3. For every schema version other than the dispatchable `1.0` and
`1.1`, `validateComponentYaml` throws the unsupported-version error: the
outcome is the same for every document and for arbitrary schema runners (so
no validator is executed on the document), and the thrown error carries zero
document violations.
-/
theorem unsupportedVersion_fatal {α : Type} (runV1D0 runV1D1 : α → List String)
    (doc : α) (v : ℚ) (h1 : v ≠ 1.0) (h2 : v ≠ 1.1) :
    validateComponentYaml runV1D0 runV1D1 v doc =
        .threw "SchemaVersion must be one of the following values: 1.0, 1.1" ∧
      dispatchViolations (validateComponentYaml runV1D0 runV1D1 v doc) = [] := by
  have h : validateComponentYaml runV1D0 runV1D1 v doc =
      .threw "SchemaVersion must be one of the following values: 1.0, 1.1" := by
    simp [validateComponentYaml, h1, h2]
  exact ⟨h, by rw [h]; rfl⟩

/-- Witness for C3 at the concrete unsupported version 1.3 named by the spec. -/
theorem unsupportedVersion_fatal_witness :
    validateComponentYaml (fun _ : Unit => ["violation"]) (fun _ => ["violation"]) 1.3 () =
        DispatchResult.threw "SchemaVersion must be one of the following values: 1.0, 1.1" ∧
      dispatchViolations
        (validateComponentYaml (fun _ : Unit => ["violation"]) (fun _ => ["violation"]) 1.3 ()) = [] :=
  unsupportedVersion_fatal _ _ () 1.3 (by norm_num) (by norm_num)

/-! ## C6: strict port bounds -/

/-- Claim C6. The port field chain shared by `serviceSchema` and
`endpointSchemaV0D1` produces no violation on a present port iff the port is
strictly between 1000 and 65535; in particular 1000 and 65535 each yield one
violation while 1001 and 65534 yield none.
-/
theorem portBounds_strict :
    (∀ p : ℚ, portChecks (some p) = [] ↔ (1000 < p ∧ p < 65535)) ∧
    portChecks (some 1000) = [NumViolation.notMoreThan 1000] ∧
    portChecks (some 1001) = [] ∧
    portChecks (some 65535) = [NumViolation.notLessThan 65535] ∧
    portChecks (some 65534) = [] := by
  refine ⟨?_, ?_, ?_, ?_, ?_⟩
  · intro p
    by_cases h1 : (1000 : ℚ) < p <;> by_cases h2 : p < 65535 <;>
      simp [portChecks, runNumberChecks, h1, h2]
  all_goals norm_num [portChecks, runNumberChecks]

/-! ## C7: endpoint-name uniqueness -/

theorem epUniqueLoop_iff (eps : List Endpoint) : ∀ seen : List String,
    (epUniqueLoop seen eps = true ↔
      ((eps.map Endpoint.name).Nodup ∧ ∀ n ∈ eps.map Endpoint.name, n ∉ seen)) := by
  induction eps with
  | nil => intro seen; simp [epUniqueLoop]
  | cons ep rest ih =>
    intro seen
    simp only [epUniqueLoop, List.map_cons, List.nodup_cons]
    constructor
    · intro h
      by_cases hmem : seen.contains ep.name
      · rw [if_pos hmem] at h
        exact absurd h (by simp)
      · rw [if_neg hmem] at h
        obtain ⟨hnd, hall⟩ := (ih (ep.name :: seen)).mp h
        refine ⟨⟨?_, hnd⟩, ?_⟩
        · intro hmem2
          have := hall ep.name hmem2
          simp at this
        · intro n hn
          rcases List.mem_cons.mp hn with rfl | hn'
          · simpa using hmem
          · have := hall n hn'
            simp only [List.mem_cons, not_or] at this
            exact this.2
    · rintro ⟨⟨hnotin, hnd⟩, hall⟩
      have hnotseen : ep.name ∉ seen := hall ep.name (by simp)
      have hmem : ¬ seen.contains ep.name = true := by simpa using hnotseen
      rw [if_neg hmem]
      apply (ih (ep.name :: seen)).mpr
      refine ⟨hnd, ?_⟩
      intro n hn
      simp only [List.mem_cons, not_or]
      constructor
      · intro hrfl
        exact hnotin (hrfl ▸ hn)
      · exact hall n (by simp [hn])

/-- Claim C7. `checkEndpointNameUniqueness` produces exactly one violation when the
endpoint array contains any repeated name (its single array-level test fires
at most once, regardless of how many duplicate pairs exist), and none when
the array is absent or all names are distinct. Concretely: two endpoints
named `api` give one violation, and three endpoints with one duplicated name
still give exactly one violation, not two.
-/
theorem endpointNameUniqueness_single_violation :
    (∀ eps : List Endpoint,
      checkEndpointNameUniqueness (some eps) =
        if (eps.map Endpoint.name).Nodup then none
        else some "Endpoint names must be unique") ∧
    checkEndpointNameUniqueness none = none ∧
    uniquenessViolationCount (some [⟨"api"⟩, ⟨"api"⟩]) = 1 ∧
    uniquenessViolationCount (some [⟨"ep1"⟩, ⟨"api"⟩, ⟨"api"⟩]) = 1 ∧
    uniquenessViolationCount (some [⟨"ep1"⟩, ⟨"ep2"⟩, ⟨"ep3"⟩]) = 0 := by
  refine ⟨?_, rfl, by decide, by decide, by decide⟩
  intro eps
  simp only [checkEndpointNameUniqueness]
  by_cases h : (eps.map Endpoint.name).Nodup
  · rw [if_pos ((epUniqueLoop_iff eps []).mpr ⟨h, by simp⟩), if_pos h]
  · have hfalse : epUniqueLoop [] eps = false := by
      cases hb : epUniqueLoop [] eps
      · rfl
      · exact absurd ((epUniqueLoop_iff eps []).mp hb).1 h
    rw [hfalse, if_neg h]
    simp

/-! ## C8: Project-only visibility for GRPC, TCP and UDP -/

theorem visibilityIsProjectOnly_iff (vis : Option (List String)) :
    visibilityIsProjectOnly vis = true ↔ vis = some [PROJECT_VISIBILITY] := by
  cases vis with
  | none => simp [visibilityIsProjectOnly]
  | some vs =>
    cases vs with
    | nil => simp [visibilityIsProjectOnly]
    | cons a l =>
      cases l with
      | nil => simp [visibilityIsProjectOnly]
      | cons b t => simp [visibilityIsProjectOnly]

/-- Claim C8. For every endpoint, the `projectVisibilityOnly` test produces a
violation iff the endpoint type is in `{GRPC, TCP, UDP}` and
`networkVisibilities` is not exactly the one-element array `["Project"]`
(covering the absent, empty, longer, and differing-element cases); endpoints
of other types never trigger it. Concretely, a GRPC endpoint with
`["Public"]` is a violation and one with `["Project"]` is not.
-/
theorem projectVisibilityOnly_iff :
    (∀ (path epType : String) (vis : Option (List String)),
      (projectVisibilityOnly path epType vis).isSome = true ↔
        (epType ∈ PROJECT_ONLY_TYPES ∧ vis ≠ some [PROJECT_VISIBILITY])) ∧
    (projectVisibilityOnly "endpoints[0].networkVisibilities" "GRPC"
        (some ["Public"])).isSome = true ∧
    projectVisibilityOnly "endpoints[0].networkVisibilities" "GRPC"
        (some ["Project"]) = none ∧
    projectVisibilityOnly "endpoints[0].networkVisibilities" "REST" none = none := by
  refine ⟨?_, by decide, by decide, by decide⟩
  intro path epType vis
  have hred : (projectVisibilityOnly path epType vis).isSome =
      (PROJECT_ONLY_TYPES.contains epType && !visibilityIsProjectOnly vis) := by
    simp only [projectVisibilityOnly]
    by_cases h : (PROJECT_ONLY_TYPES.contains epType && !visibilityIsProjectOnly vis) = true
    · rw [if_pos h, h]
      rfl
    · rw [if_neg h]
      simp only [Bool.not_eq_true] at h
      rw [h]
      rfl
  rw [hred, Bool.and_eq_true, Bool.not_eq_true']
  constructor
  · rintro ⟨hc, hv⟩
    refine ⟨by simpa using hc, ?_⟩
    intro heq
    rw [(visibilityIsProjectOnly_iff vis).mpr heq] at hv
    simp at hv
  · rintro ⟨hc, hv⟩
    refine ⟨by simpa using hc, ?_⟩
    cases hb : visibilityIsProjectOnly vis
    · rfl
    · exact absurd ((visibilityIsProjectOnly_iff vis).mp hb) hv

/-! ## C4: probe I/O errors become violations -/

/-- Claim C4. When the file-existence probe raises an I/O error, `schemaFileExists`
fails the test with the default yup message (the `catch` block discards the
`ValidationError` it builds, so the callback returns `undefined` and yup
supplies `${path} is invalid`); that message differs from the file-not-found
violation message for every path and value (their final characters differ),
and no probe outcome ever makes an exception escape the validator.
-/
theorem schemaFileExists_probeError (path v probeErr : String)
    (value : Option String) (probe : Except String Bool) (hv : v ≠ "") :
    schemaFileExists path (some v) (.error probeErr) =
        .ok (.fail (yupDefaultMessage path)) ∧
      yupDefaultMessage path ≠
        "Schema file does not exist at the given path " ++ v ++ "." ∧
      (schemaFileExists path value probe).isOk = true := by
  refine ⟨?_, ?_, ?_⟩
  · have hb : (v == "") = false := by simpa using hv
    simp [schemaFileExists, hb]
  · intro heq
    have h1 : (yupDefaultMessage path).data.getLast? = some 'd' := by
      unfold yupDefaultMessage
      exact lastCharOfAppend _ _ _ (by decide)
    have h2 : ("Schema file does not exist at the given path " ++ v ++ ".").data.getLast?
        = some '.' := lastCharOfAppend _ _ _ (by decide)
    rw [heq, h2] at h1
    exact absurd h1 (by decide)
  · rcases value with _ | v'
    · rfl
    · simp only [schemaFileExists]
      by_cases hb : (v' == "") = true
      · rw [if_pos hb]
        rfl
      · rw [if_neg hb]
        rcases probe with e | b
        · rfl
        · cases b <;> rfl

/-- Witness for C4 at a concrete path, schema file and I/O error. -/
theorem schemaFileExists_probeError_witness :
    schemaFileExists "endpoints[0].schemaFilePath" (some "openapi.yaml") (.error "EACCES") =
        .ok (.fail (yupDefaultMessage "endpoints[0].schemaFilePath")) ∧
      yupDefaultMessage "endpoints[0].schemaFilePath" ≠
        "Schema file does not exist at the given path " ++ "openapi.yaml" ++ "." ∧
      (schemaFileExists "endpoints[0].schemaFilePath" (some "api.graphql")
        (.error "EIO")).isOk = true :=
  schemaFileExists_probeError "endpoints[0].schemaFilePath" "openapi.yaml" "EACCES"
    (some "api.graphql") (.error "EIO") (by decide)

/-! ## C5: error reporter formatting -/

theorem splitOnChar_cons_self (sep : Char) (l : List Char) :
    splitOnChar sep (sep :: l) = [] :: splitOnChar sep l := by
  simp [splitOnChar]

theorem splitOnChar_append (sep : Char) (xs ys : List Char) (hd : List Char)
    (tl : List (List Char)) (hxs : ∀ c ∈ xs, c ≠ sep)
    (hys : splitOnChar sep ys = hd :: tl) :
    splitOnChar sep (xs ++ ys) = (xs ++ hd) :: tl := by
  induction xs with
  | nil => simpa using hys
  | cons c cs ih =>
    have hc : ¬ c = sep := hxs c (by simp)
    have hih := ih (fun d hdm => hxs d (by simp [hdm]))
    simp only [List.cons_append, splitOnChar, if_neg hc]
    rw [show splitOnChar sep (cs.append ys) = (cs ++ hd) :: tl from hih]

theorem concatAll_data (l : List String) :
    (concatAll l).data = (l.map String.data).flatten := by
  induction l with
  | nil => rfl
  | cons s rest ih => simp [concatAll, data_append, ih]

theorem noNewline_append (s t : String) :
    noNewline (s ++ t) = (noNewline s && noNewline t) := by
  simp [noNewline, data_append, List.all_append]

theorem splitOnChar_bullets (es : List String)
    (h : ∀ e ∈ es, ∀ c ∈ e.data, c ≠ '\n') :
    splitOnChar '\n' ((es.map (fun e => "\n- " ++ e)).map String.data).flatten =
      [] :: es.map (fun e => '-' :: ' ' :: e.data) := by
  induction es with
  | nil => rfl
  | cons e rest ih =>
    have he : ∀ c ∈ e.data, c ≠ '\n' := h e (by simp)
    have hrest := ih (fun x hx => h x (by simp [hx]))
    have hdata : ("\n- " ++ e).data = '\n' :: '-' :: ' ' :: e.data := by
      cases e
      rfl
    rw [List.map_cons, List.map_cons, List.flatten_cons, hdata, List.cons_append,
      splitOnChar_cons_self]
    have hxs : ∀ c ∈ ('-' :: ' ' :: e.data), c ≠ '\n' := by
      intro c hc
      simp only [List.mem_cons] at hc
      rcases hc with rfl | rfl | hc
      · decide
      · decide
      · exact he c hc
    rw [splitOnChar_append '\n' ('-' :: ' ' :: e.data) _ [] _ hxs hrest]
    simp

/-- Claim C5. `constructValidationErrorMessage`: with zero violations it returns the
internal-error message ending in the raw failure detail; with exactly one
violation it returns the validation-failed message with the text of that violation
inline; with two or more newline-free violations, splitting the result on
newlines yields the validation-failed header followed by exactly one line per
violation, each line being a dash-space bullet followed by exactly the message of that violation.
-/
theorem errorReporter_formats (internalCode userCode : String)
    (err : ValidationFailure) (ft : String) (e : String) (es : List String) :
    ((err.errors = none ∨ err.errors = some []) →
      constructValidationErrorMessage internalCode userCode err ft =
        internalCode ++ " Failed to validate " ++ ft ++ ", something went wrong:" ++
          err.toStringRepr) ∧
    (err.errors = some [e] →
      constructValidationErrorMessage internalCode userCode err ft =
        userCode ++ " " ++ ft ++ " validation failed: " ++ e) ∧
    (err.errors = some es → 2 ≤ es.length →
      noNewline userCode = true → noNewline ft = true →
      (∀ x ∈ es, noNewline x = true) →
      splitOnChar '\n' (constructValidationErrorMessage internalCode userCode err ft).data =
        (userCode ++ " " ++ ft ++ " validation failed: ").data
          :: es.map (fun x => '-' :: ' ' :: x.data)) := by
  refine ⟨?_, ?_, ?_⟩
  · rintro (h | h) <;> simp [constructValidationErrorMessage, h]
  · intro h
    simp [constructValidationErrorMessage, h]
  · intro h hlen huc hft hes
    have h0 : ¬ es.length = 0 := by omega
    have h1 : ¬ es.length = 1 := by omega
    simp only [constructValidationErrorMessage, h, if_neg h0, if_neg h1]
    rw [data_append, concatAll_data]
    have hblocks := splitOnChar_bullets es (fun x hx => noNewline_mem (hes x hx))
    have hmsgnl : noNewline (userCode ++ " " ++ ft ++ " validation failed: ") = true := by
      have hs1 : noNewline " " = true := by decide
      have hs2 : noNewline " validation failed: " = true := by decide
      simp [noNewline_append, huc, hft, hs1, hs2]
    have := splitOnChar_append '\n' _ _ [] _ (noNewline_mem hmsgnl) hblocks
    rw [this]
    simp

/-- Witness for C5: the three formatting regimes at concrete failures. -/
theorem errorReporter_formats_witness :
    constructValidationErrorMessage "IE" "UE" ⟨none, "Error: engine fault"⟩ "component.yaml" =
        "IE" ++ " Failed to validate " ++ "component.yaml" ++ ", something went wrong:" ++
          "Error: engine fault" ∧
      constructValidationErrorMessage "IE" "UE" ⟨some ["v1"], "x"⟩ "component.yaml" =
        "UE" ++ " " ++ "component.yaml" ++ " validation failed: " ++ "v1" ∧
      splitOnChar '\n'
          (constructValidationErrorMessage "IE" "UE" ⟨some ["v1", "v2"], "x"⟩
            "component.yaml").data =
        ("UE" ++ " " ++ "component.yaml" ++ " validation failed: ").data
          :: ["v1", "v2"].map (fun x => '-' :: ' ' :: x.data) :=
  ⟨(errorReporter_formats "IE" "UE" ⟨none, "Error: engine fault"⟩ "component.yaml"
      "" []).1 (Or.inl rfl),
   (errorReporter_formats "IE" "UE" ⟨some ["v1"], "x"⟩ "component.yaml"
      "v1" []).2.1 rfl,
   (errorReporter_formats "IE" "UE" ⟨some ["v1", "v2"], "x"⟩ "component.yaml"
      "" ["v1", "v2"]).2.2 rfl (by decide) (by decide) (by decide) (by decide)⟩

/-! ## C9: the third-party reference grammar -/

/-- Claim C9, counterexample. The claim says both classifiers accept a
`thirdparty:`-prefixed string iff it matches the bit-exact grammar
`thirdparty:[A-Za-z0-9 _.\-]+/[vV]\d+(\.\d+)*`, whose name class contains the
space character only. The name class of the source regex is `[a-zA-Z0-9\s_.-]`,
and JS `\s` also matches tab, newline, NBSP and the other whitespace
characters: `thirdparty:a` + TAB + `b/v1` is accepted by both classifiers
yet does not match the claimed grammar.
-/
theorem thirdParty_tab_counterexample :
    validateServiceName "name" "thirdparty:a\tb/v1".data = none ∧
      validateResourceRef "resourceRef" "thirdparty:a\tb/v1".data = none ∧
      specThirdPartyRefMatches "thirdparty:a\tb/v1".data = false := by
  exact ⟨by decide, by decide, by decide⟩

/-- Claim C9, amended. For every string beginning with `thirdparty:`, both
classifiers (`validateServiceName` and `validateResourceRef`) accept it iff
it matches `thirdparty:NAME/[vV]\d+(\.\d+)*` where `NAME` is one or more
characters from `[a-zA-Z0-9\s_.-]` — JS `\s` (any whitespace), not only the
space character. In particular `thirdparty:Stripe API/v2.1` is accepted and
`thirdparty:Stripe API/2.1` (version missing its leading `v`) is rejected by
both.
-/
theorem thirdParty_grammar :
    (∀ (rest : List Char) (path : String),
      (validateServiceName path ("thirdparty:".data ++ rest) = none ↔
        thirdPartyRefMatches ("thirdparty:".data ++ rest) = true) ∧
      (validateResourceRef path ("thirdparty:".data ++ rest) = none ↔
        thirdPartyRefMatches ("thirdparty:".data ++ rest) = true)) ∧
    validateServiceName "name" "thirdparty:Stripe API/v2.1".data = none ∧
    validateResourceRef "resourceRef" "thirdparty:Stripe API/v2.1".data = none ∧
    (validateServiceName "name" "thirdparty:Stripe API/2.1".data).isSome = true ∧
    (validateResourceRef "resourceRef" "thirdparty:Stripe API/2.1".data).isSome = true := by
  refine ⟨?_, by decide, by decide, by decide, by decide⟩
  intro rest path
  have key1 : validateServiceName path ("thirdparty:".data ++ rest) =
      (if thirdPartyRefMatches ("thirdparty:".data ++ rest) then none
       else some (path ++ " has an invalid service identifier. " ++
         "Use the format thirdparty:<service_name>/<version>, " ++
         "allowing only alphanumeric characters, periods (.), underscores (_), hyphens (-), and slashes (/) after thirdparty:.")) := rfl
  have key2 : validateResourceRef path ("thirdparty:".data ++ rest) =
      (if thirdPartyRefMatches ("thirdparty:".data ++ rest) then none
       else some (path ++ " has an invalid service identifier. " ++
         "Use the format thirdparty:<service_name>/<version>, " ++
         "allowing only alphanumeric characters, periods (.), underscores (_), hyphens (-), and slashes (/) after thirdparty:.")) := rfl
  rw [key1, key2]
  cases hm : thirdPartyRefMatches ("thirdparty:".data ++ rest) <;> simp [hm]

/-! ## C10: service-reference names accept no unprefixed strings -/

/-- Claim C10. `validateServiceName` (the classifier for the
`serviceReferences[].name`) rejects every string that does not begin with
`choreo:///`, `thirdparty:` or `database:`, with the violation saying only
choreo, thirdparty, or database types are allowed — while the generic
unprefixed resource-reference form (e.g. `comp/v1`) is accepted by
`validateResourceRef`, it is never accepted as a service-reference name.
-/
theorem serviceName_rejects_unprefixed :
    (∀ (s : List Char) (path : String),
      startsWithChars s "choreo:///".data = false →
      startsWithChars s "thirdparty:".data = false →
      startsWithChars s "database:".data = false →
      validateServiceName path s =
        some (path ++
          " has an invalid service identifier. It can only contain choreo, thirdparty, or database types.")) ∧
    validateResourceRef "resourceRef" "comp/v1".data = none := by
  refine ⟨?_, by decide⟩
  intro s path h1 h2 h3
  simp [validateServiceName, h1, h2, h3]

/-- Witness for C10: the unprefixed `comp/v1`, accepted as a `resourceRef`,
is rejected as a service-reference name. -/
theorem serviceName_rejects_unprefixed_witness :
    validateServiceName "dependencies.serviceReferences[0].name" "comp/v1".data =
      some ("dependencies.serviceReferences[0].name" ++
        " has an invalid service identifier. It can only contain choreo, thirdparty, or database types.") :=
  serviceName_rejects_unprefixed.1 "comp/v1".data "dependencies.serviceReferences[0].name"
    (by decide) (by decide) (by decide)
